import Mathlib

set_option maxHeartbeats 1000000

/-
Verification development for the CoderSwap MCP server
(`src/index.ts`, `src/coderswap-client.ts`).

The embedding models JavaScript values as the inductive `JValue`
(mappings, ordered sequences, strings, numbers, booleans, null/undefined),
JS numbers as exact rationals, backend interactions as explicit
`Except`-valued oracles passed to each tool handler, and the stdio/process
side of startup as a pure function from the collaborator outcomes
(file read, SHA-256 digest, YAML parse) to a startup result.
-/

namespace McpServer

/-- A JavaScript/JSON-like runtime value, as produced by parsing YAML or by
assembling tool-call argument objects: null/undefined (merged, since every
code path treats them identically), strings, numbers (modelled as exact
rationals), booleans, arrays, and objects (ordered key/value fields). -/
inductive JValue where
  | vnull : JValue
  | str (s : String) : JValue
  | num (q : ℚ) : JValue
  | bool (b : Bool) : JValue
  | arr (items : List JValue) : JValue
  | obj (fields : List (String × JValue)) : JValue
deriving Repr

/-- `GUARDRAIL_KEYWORDS` from `src/index.ts` lines 17-26. -/
def GUARDRAIL_KEYWORDS : List String :=
  [ "reset guardrails"
  , "disable guardrails"
  , "ignore guardrails"
  , "bypass guardrails"
  , "disable safety"
  , "bypass safety"
  , "disable protections"
  , "turn off protections" ]

/-- JavaScript `hay.includes(needle)`: `needle` occurs contiguously in `hay`. -/
def strIncludes (hay needle : String) : Bool :=
  decide (needle.data <:+: hay.data)

/-- JavaScript `s.toLowerCase()` (character-wise lowering; agrees with the JS
function on the ASCII text this code handles). -/
def jsToLower (s : String) : String :=
  String.mk (s.data.map Char.toLower)

/-- JavaScript `s.toUpperCase()` (character-wise raising, as above). -/
def jsToUpper (s : String) : String :=
  String.mk (s.data.map Char.toUpper)

/-- JavaScript `s.trim()`: strip leading and trailing whitespace. -/
def jsTrim (s : String) : String :=
  String.mk (((s.data.dropWhile Char.isWhitespace).reverse.dropWhile
    Char.isWhitespace).reverse)

/-- The per-string test of `containsGuardrailBypass` (`src/index.ts` lines
106-108): the lower-cased string contains one of the keywords. -/
def matchesGuardrailKeyword (payload : String) : Bool :=
  GUARDRAIL_KEYWORDS.any fun keyword => strIncludes (jsToLower payload) keyword

/-- `containsGuardrailBypass` from `src/index.ts` lines 104-117: recursively
scan a payload; a string matches when its lower-cased form contains one of the
keywords; arrays and objects are scanned recursively (objects by their
values); everything else (null/undefined via the first guard, numbers and
booleans via the final `return false`) does not match. -/
def containsGuardrailBypass : JValue → Bool
  | .vnull => false
  | .str payload => matchesGuardrailKeyword payload
  | .arr items => items.attach.any fun item => containsGuardrailBypass item.1
  | .obj fields => fields.attach.any fun field => containsGuardrailBypass field.1.2
  | .num _ => false
  | .bool _ => false
termination_by v => sizeOf v
decreasing_by
  · have := List.sizeOf_lt_of_mem item.2
    simp only [JValue.arr.sizeOf_spec]
    omega
  · have h1 := List.sizeOf_lt_of_mem field.2
    obtain ⟨⟨k, v⟩, hm⟩ := field
    simp only [JValue.obj.sizeOf_spec]
    simp only [Prod.mk.sizeOf_spec] at h1
    omega

/-- Spec-side notion (from the spec's words, for claim C1): the string values
reachable anywhere in a nested payload. -/
def JValue.strings : JValue → List String
  | .vnull => []
  | .str s => [s]
  | .num _ => []
  | .bool _ => []
  | .arr items => items.attach.flatMap fun item => item.1.strings
  | .obj fields => fields.attach.flatMap fun field => field.1.2.strings
termination_by v => sizeOf v
decreasing_by
  · have := List.sizeOf_lt_of_mem item.2
    simp only [JValue.arr.sizeOf_spec]
    omega
  · have h1 := List.sizeOf_lt_of_mem field.2
    obtain ⟨⟨k, v⟩, hm⟩ := field
    simp only [JValue.obj.sizeOf_spec]
    simp only [Prod.mk.sizeOf_spec] at h1
    omega

/-- Structural induction principle for `JValue` giving the inductive
hypothesis at every member of an array and at every field value of an
object. -/
theorem JValue.inductionOn {P : JValue → Prop}
    (hnull : P .vnull)
    (hstr : ∀ s, P (.str s))
    (hnum : ∀ q, P (.num q))
    (hbool : ∀ b, P (.bool b))
    (harr : ∀ items, (∀ x ∈ items, P x) → P (.arr items))
    (hobj : ∀ fields, (∀ p ∈ fields, P p.2) → P (.obj fields)) :
    ∀ v, P v
  | .vnull => hnull
  | .str s => hstr s
  | .num q => hnum q
  | .bool b => hbool b
  | .arr items => harr items fun x _ =>
      JValue.inductionOn hnull hstr hnum hbool harr hobj x
  | .obj fields => hobj fields fun p _ =>
      JValue.inductionOn hnull hstr hnum hbool harr hobj p.2
termination_by v => sizeOf v
decreasing_by
  · rename_i hx
    have := List.sizeOf_lt_of_mem hx
    simp only [JValue.arr.sizeOf_spec]
    omega
  · rename_i hp
    have h1 := List.sizeOf_lt_of_mem hp
    obtain ⟨k, v⟩ := p
    simp only [JValue.obj.sizeOf_spec]
    simp only [Prod.mk.sizeOf_spec] at h1
    omega

/-! ## Response envelope and thrown failures -/

/-- A thrown JavaScript failure: an `Error` instance carrying a message, or
any non-`Error` thrown value. -/
inductive Thrown where
  | err (message : String) : Thrown
  | nonError : Thrown
deriving Repr, DecidableEq

/-- The message each catch branch extracts:
`error instanceof Error ? error.message : 'Unknown error'`. -/
def errMsg : Thrown → String
  | .err message => message
  | .nonError => "Unknown error"

/-- The MCP tool response envelope: the human-readable text of the single
`content` block, the `isError` flag (absent in the source on success, i.e.
`false`), and the optional `structuredContent` payload. -/
structure ToolResponse (σ : Type) where
  text : String
  isError : Bool
  structured : Option σ
deriving Repr, DecidableEq

/-- `guardrailViolationResponse` from `src/index.ts` lines 119-127. -/
def guardrailViolationResponse {σ : Type} : ToolResponse σ :=
  { text := "✗ Request rejected: system guardrails cannot be bypassed."
  , isError := true
  , structured := none }

/-- The uniform catch-branch envelope: a failure marker followed by the
extracted message, flagged as an error, with no structured payload. -/
def errorResponse {σ : Type} (marker : String) (e : Thrown) : ToolResponse σ :=
  { text := marker ++ errMsg e, isError := true, structured := none }

/-- JavaScript `a || b` on an optional string: `b` when `a` is absent or
falsy (the empty string), else the string itself. -/
def jsOrStr (a : Option String) (b : String) : String :=
  match a with
  | some s => if s = "" then b else s
  | none => b

/-- JavaScript `s.substring(0, n)`. -/
def jsSubstrTo (s : String) (n : Nat) : String :=
  String.mk (s.data.take n)

/-- JavaScript `s.length` (character count). -/
def jsLength (s : String) : Nat :=
  s.data.length

/-- JavaScript `x.toFixed(1)` on an exact rational: round to the nearest
tenth, ties away from zero going up, rendered with one decimal digit. -/
def jsToFixed1 (q : ℚ) : String :=
  let sign := if q < 0 then "-" else ""
  let n := (⌊|q| * 10 + 1 / 2⌋).toNat
  sign ++ toString (n / 10) ++ "." ++ toString (n % 10)

/-! ## Backend client data (`src/coderswap-client.ts`) -/

/-- `ProjectSummary` from `src/coderswap-client.ts` lines 13-21 (counts
modelled as naturals). -/
structure ProjectSummary where
  project_id : String
  name : Option String := none
  created_at : Option String := none
  doc_count : Option Nat := none
  status : Option String := none
  search_mode : Option String := none
  embedding_dim : Option Nat := none
deriving Repr, DecidableEq

/-- `SearchResult` from `src/coderswap-client.ts` lines 33-38; the score is
an exact rational. The `metadata` mapping is carried opaquely by the code
and never inspected, so it is not modelled. -/
structure SearchResult where
  score : ℚ
  title : Option String := none
  snippet : Option String := none
deriving Repr, DecidableEq

/-- `IngestJobStatus` from `src/coderswap-client.ts` lines 23-31 (the fields
the server reads). -/
structure IngestJobStatus where
  job_id : String
  state : String
  crawled_count : Option Nat := none
  failed_count : Option Nat := none
deriving Repr, DecidableEq

/-- The backend's response to a project creation (accessed fields of the
untyped `project` value in the handler). -/
structure CreatedProject where
  project_id : String
  name : Option String := none
  status : Option String := none
deriving Repr, DecidableEq

/-- The backend's response to a research-ingest submission (the handler reads
only `job.job_id`). -/
structure QueuedJob where
  job_id : String
deriving Repr, DecidableEq

/-- The backend's response to a search (`{ results, request_id? }`). -/
structure SearchBackendResponse where
  results : List SearchResult
  request_id : Option String := none
deriving Repr, DecidableEq

/-- `getProjectStats` from `src/coderswap-client.ts` lines 97-104: list all
projects (whose outcome, including transport failure, is the `listOutcome`
argument) and linearly scan for the first entry with the requested
identifier; absence raises an `Error` naming the identifier. -/
def getProjectStats (listOutcome : Except Thrown (List ProjectSummary))
    (projectId : String) : Except Thrown ProjectSummary :=
  match listOutcome with
  | .error e => .error e
  | .ok projects =>
    match projects.find? fun item => item.project_id == projectId with
    | some project => .ok project
    | none => .error (.err ("Project " ++ projectId ++ " not found"))

/-! ## Search-quality aggregation (`testSearchQuality`, client lines 149-185) -/

/-- The fixed built-in probe suite (client lines 151-157). -/
def FULL_SUITE_QUERIES : List String :=
  [ "what is hybrid search"
  , "how to implement rag"
  , "error troubleshooting vector search"
  , "bm25 algorithm"
  , "semantic vs keyword search" ]

/-- `Array.from(new Set(queries))`: JavaScript `Set` keeps insertion order,
so each element is kept at its first occurrence. -/
def setDedup (l : List String) : List String :=
  l.foldl (fun acc q => if q ∈ acc then acc else acc ++ [q]) []

/-- The effective query list (client lines 150-158): the built-in suite when
`run_full_suite` is set, otherwise `test_queries || []`. -/
def effectiveQueries (run_full_suite : Bool) (test_queries : Option (List String)) :
    List String :=
  if run_full_suite then FULL_SUITE_QUERIES else test_queries.getD []

/-- Insert a result into an already descending-sorted list, before the first
entry whose score does not exceed it (so earlier-listed results stay ahead of
later equal-scored ones). -/
def insertByScoreDesc (r : SearchResult) : List SearchResult → List SearchResult
  | [] => [r]
  | x :: xs =>
    if x.score ≤ r.score then r :: x :: xs else x :: insertByScoreDesc r xs

/-- `results.sort((a, b) => (b.score ?? 0) - (a.score ?? 0))`: JavaScript
`Array.prototype.sort` is specified to produce a stable, comparator-sorted
order — here descending by score, ties keeping the backend's original
order — modelled by a stable insertion sort. -/
def sortByScoreDesc (results : List SearchResult) : List SearchResult :=
  results.foldr insertByScoreDesc []

/-- One per-query record of the quality report (client lines 169-174). -/
structure QueryRecord where
  query : String
  topScore : ℚ
  count : Nat
  items : List SearchResult
deriving Repr, DecidableEq

/-- The aggregate block of the quality report (client lines 177-182). -/
structure QualityAggregate where
  queries_tested : Nat
  average_top_score : ℚ
  zero_result_queries : List String
deriving Repr, DecidableEq

/-- The full quality report `{ aggregate, results }`. -/
structure QualityReport where
  aggregate : QualityAggregate
  results : List QueryRecord
deriving Repr, DecidableEq

/-- `coderswap_validate_search` input (tool 6 schema). -/
structure TestSearchQualityInput where
  project_id : String
  test_queries : Option (List String) := none
  run_full_suite : Bool := false
deriving Repr, DecidableEq

/-- The sequential per-query loop of `testSearchQuality` (client lines
165-175): one backend search per query, in order. Besides the records it
returns the trace of queries actually submitted to the backend. -/
def runSearchQueries (backend : String → List SearchResult) :
    List String → List QueryRecord × List String
  | [] => ([], [])
  | query :: rest =>
    let sorted := sortByScoreDesc (backend query)
    let record : QueryRecord :=
      { query := query
      , topScore := ((sorted.head?).map SearchResult.score).getD 0
      , count := sorted.length
      , items := sorted }
    let (records, trace) := runSearchQueries backend rest
    (record :: records, query :: trace)

/-- `testSearchQuality` (client lines 149-185): build the effective query
list, deduplicate it, fail when it is empty, otherwise run every query
sequentially and aggregate. The second component is the trace of backend
searches issued. -/
def testSearchQuality (backend : String → List SearchResult)
    (input : TestSearchQualityInput) :
    Except String QualityReport × List String :=
  let uniqueQueries :=
    setDedup (effectiveQueries input.run_full_suite input.test_queries)
  if uniqueQueries.isEmpty then
    (.error "No queries provided for search quality test", [])
  else
    let (results, trace) := runSearchQueries backend uniqueQueries
    let aggregate : QualityAggregate :=
      { queries_tested := results.length
      , average_top_score :=
          (results.foldl (fun sum item => sum + item.topScore) 0)
            / ((max results.length 1 : Nat) : ℚ)
      , zero_result_queries :=
          (results.filter fun item => item.count == 0).map QueryRecord.query }
    (.ok { aggregate := aggregate, results := results }, trace)

/-! ## Tool handlers (`src/index.ts`) -/

/-- `coderswap_create_project` structured output. -/
structure CreateProjectOutput where
  project_id : String
  name : String
  status : Option String
deriving Repr, DecidableEq

/-- Tool 0 handler (`src/index.ts` lines 204-234), with the backend call's
outcome supplied as `out` (the `description` argument only feeds that call,
so it does not reappear here). -/
def createProjectHandler (out : Except Thrown CreatedProject)
    (name : String) (_description : Option String) :
    ToolResponse CreateProjectOutput :=
  match out with
  | .ok project =>
    { text := "✓ Created project \"" ++ name ++ "\" (ID: " ++ project.project_id ++ ")"
    , isError := false
    , structured := some
        { project_id := project.project_id
        , name := jsOrStr project.name name
        , status := project.status } }
  | .error e => errorResponse "✗ Failed to create project: " e

/-- One entry of the `coderswap_list_projects` structured output. -/
structure ProjectListEntry where
  project_id : String
  name : Option String
  doc_count : Option Nat
  search_mode : Option String
deriving Repr, DecidableEq

/-- `coderswap_list_projects` structured output. -/
structure ListProjectsOutput where
  count : Nat
  projects : List ProjectListEntry
deriving Repr, DecidableEq

/-- Tool 1 handler (`src/index.ts` lines 253-311). -/
def listProjectsHandler (out : Except Thrown (List ProjectSummary)) :
    ToolResponse ListProjectsOutput :=
  match out with
  | .ok projects =>
    let output : ListProjectsOutput :=
      { count := projects.length
      , projects := projects.map fun p =>
          { project_id := p.project_id
          , name := p.name
          , doc_count := p.doc_count
          , search_mode := p.search_mode } }
    if projects.isEmpty then
      { text := "No projects found", isError := false, structured := some output }
    else
      let projectList := String.intercalate "\n\n" (projects.map fun p =>
        String.intercalate "\n"
          ([ "• " ++ jsOrStr p.name "Untitled Project"
           , "  ID: " ++ p.project_id
           , "  Docs: " ++ toString (p.doc_count.getD 0) ]
            ++ match p.search_mode with
               | some m => if m = "" then [] else ["  Search Mode: " ++ m]
               | none => []))
      { text := "Found " ++ toString projects.length ++ " project(s):\n\n" ++ projectList
      , isError := false
      , structured := some output }
  | .error e => errorResponse "✗ Failed to list projects: " e

/-- `coderswap_get_project_stats` structured output. -/
structure ProjectStatsOutput where
  project_id : String
  name : Option String
  doc_count : Option Nat
  created_at : Option String
deriving Repr, DecidableEq

/-- Tool 2 handler (`src/index.ts` lines 330-361): delegates to
`getProjectStats` over the project-listing outcome. -/
def getProjectStatsHandler (listOutcome : Except Thrown (List ProjectSummary))
    (project_id : String) : ToolResponse ProjectStatsOutput :=
  match getProjectStats listOutcome project_id with
  | .ok stats =>
    { text := "Project: " ++ jsOrStr stats.name project_id
        ++ "\nDocuments: " ++ toString (stats.doc_count.getD 0)
        ++ "\nCreated: " ++ jsOrStr stats.created_at "Unknown"
    , isError := false
    , structured := some
        { project_id := stats.project_id
        , name := stats.name
        , doc_count := stats.doc_count
        , created_at := stats.created_at } }
  | .error e => errorResponse "✗ Failed to get project stats: " e

/-- `coderswap_research_ingest` validated input (tool 3 schema). -/
structure ResearchIngestInput where
  project_id : String
  research_summary : Option String := none
  urls : List String
  intent : Option String := none
  depth : ℚ := 0
  generate_dsl : Bool := true
deriving Repr, DecidableEq

/-- An optional string as the JavaScript value sitting in an argument
object: the string itself, or undefined. -/
def optJ : Option String → JValue
  | some s => .str s
  | none => .vnull

/-- The payload the research-ingest handler scans (`src/index.ts` line 385):
`{ project_id, research_summary, urls, intent }` — note `depth` and
`generate_dsl` are not part of it. -/
def scannedIngestPayload (i : ResearchIngestInput) : JValue :=
  .obj
    [ ("project_id", .str i.project_id)
    , ("research_summary", optJ i.research_summary)
    , ("urls", .arr (i.urls.map .str))
    , ("intent", optJ i.intent) ]

/-- `coderswap_research_ingest` structured output. -/
structure ResearchIngestOutput where
  job_id : String
  project_id : String
  status : String
deriving Repr, DecidableEq

/-- Tool 3 handler (`src/index.ts` lines 384-424): guardrail scan first,
then the backend call. The second component counts backend invocations. -/
def researchIngestHandler (backend : ResearchIngestInput → Except Thrown QueuedJob)
    (i : ResearchIngestInput) : ToolResponse ResearchIngestOutput × Nat :=
  if containsGuardrailBypass (scannedIngestPayload i) then
    (guardrailViolationResponse, 0)
  else
    match backend i with
    | .ok job =>
      ({ text := "✓ Queued research ingest job: " ++ job.job_id
           ++ "\n\nCrawling " ++ toString i.urls.length ++ " URL(s)...\nDSL Generation: "
           ++ (if i.generate_dsl then "enabled" else "disabled")
           ++ "\n\nUse coderswap_get_job_status to monitor progress."
       , isError := false
       , structured := some
           { job_id := job.job_id, project_id := i.project_id, status := "queued" } }
      , 1)
    | .error e => (errorResponse "✗ Failed to start research ingest: " e, 1)

/-- `coderswap_get_job_status` structured output. -/
structure JobStatusOutput where
  job_id : String
  state : String
  crawled_count : Option Nat
  failed_count : Option Nat
deriving Repr, DecidableEq

/-- Tool 4 handler (`src/index.ts` lines 443-482). -/
def getJobStatusHandler (out : Except Thrown IngestJobStatus)
    (job_id : String) : ToolResponse JobStatusOutput :=
  match out with
  | .ok job =>
    { text := "Job: " ++ job_id ++ "\nStatus: " ++ job.state
        ++ (match job.crawled_count with
            | some n => "\nCrawled: " ++ toString n ++ " documents"
            | none => "")
        ++ (match job.failed_count with
            | some n => if n > 0 then "\nFailed: " ++ toString n ++ " documents" else ""
            | none => "")
    , isError := false
    , structured := some
        { job_id := job.job_id
        , state := job.state
        , crawled_count := job.crawled_count
        , failed_count := job.failed_count } }
  | .error e => errorResponse "✗ Failed to get job status: " e

/-- `coderswap_search` validated input (tool 5 schema, with its defaults). -/
structure SearchInput where
  project_id : String
  query : String
  top_k : Nat := 10
  snippet_length : Nat := 200
deriving Repr, DecidableEq

/-- `coderswap_search` structured output. -/
structure SearchOutput where
  query : String
  result_count : Nat
  results : List SearchResult
deriving Repr, DecidableEq

/-- Tool 5 handler (`src/index.ts` lines 507-564): `result_count` is the
full backend result list's length, `results` is `slice(0, top_k)`. -/
def searchHandler (out : Except Thrown SearchBackendResponse)
    (i : SearchInput) : ToolResponse SearchOutput :=
  match out with
  | .ok result =>
    let output : SearchOutput :=
      { query := i.query
      , result_count := result.results.length
      , results := (result.results.take i.top_k).map fun r =>
          { score := r.score, title := r.title, snippet := r.snippet } }
    if result.results.isEmpty then
      { text := "No results found for: \"" ++ i.query ++ "\""
      , isError := false
      , structured := some output }
    else
      let formattedResults := String.intercalate "\n\n"
        ((result.results.take i.top_k).enum.map fun p =>
          (if p.1 = 0 then "🥇" else if p.1 = 1 then "🥈"
           else if p.1 = 2 then "🥉" else toString (p.1 + 1) ++ ".")
          ++ " Score: " ++ jsToFixed1 (p.2.score * 100) ++ "%"
          ++ (match p.2.title with
              | some t => if t = "" then "" else "\n   " ++ t
              | none => "")
          ++ (match p.2.snippet with
              | some sn => if sn = "" then "" else "\n   " ++ jsSubstrTo sn 150 ++ "..."
              | none => ""))
      { text := "Found " ++ toString result.results.length ++ " result(s) for: \""
          ++ i.query ++ "\"\n\n" ++ formattedResults
      , isError := false
      , structured := some output }
  | .error e => errorResponse "✗ Search failed: " e

/-- `coderswap_validate_search` structured output. -/
structure ValidateSearchOutput where
  queries_tested : Nat
  average_top_score : ℚ
  zero_result_queries : List String
deriving Repr, DecidableEq

/-- Tool 6 handler (`src/index.ts` lines 584-630), over the outcome of the
client's `testSearchQuality`. -/
def validateSearchHandler (out : Except Thrown QualityReport) :
    ToolResponse ValidateSearchOutput :=
  match out with
  | .ok report =>
    { text := "Search Quality Report\n" ++ String.mk (List.replicate 40 '=') ++ "\n"
        ++ "Queries tested: " ++ toString report.aggregate.queries_tested ++ "\n"
        ++ "Average top score: " ++ jsToFixed1 (report.aggregate.average_top_score * 100) ++ "%\n"
        ++ "Zero-result queries: " ++ toString report.aggregate.zero_result_queries.length ++ "\n\n"
        ++ (if report.results.isEmpty then ""
            else "Top Results:\n" ++ String.join ((report.results.take 3).map fun r =>
              "  • \"" ++ r.query ++ "\" → " ++ jsToFixed1 (r.topScore * 100)
                ++ "% (" ++ toString r.count ++ " results)\n"))
    , isError := false
    , structured := some
        { queries_tested := report.aggregate.queries_tested
        , average_top_score := report.aggregate.average_top_score
        , zero_result_queries := report.aggregate.zero_result_queries } }
  | .error e => errorResponse "✗ Search quality test failed: " e

/-- `coderswap_log_session_note` validated input (tool 7 schema);
`ingestion_metrics` and `tags` are `z.any()`, hence arbitrary values. -/
structure LogSessionNoteInput where
  project_id : String
  summary_text : String
  job_id : Option String := none
  ingestion_metrics : JValue := .vnull
  tags : JValue := .vnull

/-- The payload the log-session-note handler scans (`src/index.ts` line 653):
`{ project_id, summary_text, job_id, ingestion_metrics, tags }`. -/
def scannedNotePayload (i : LogSessionNoteInput) : JValue :=
  .obj
    [ ("project_id", .str i.project_id)
    , ("summary_text", .str i.summary_text)
    , ("job_id", optJ i.job_id)
    , ("ingestion_metrics", i.ingestion_metrics)
    , ("tags", i.tags) ]

/-- `coderswap_log_session_note` structured output. -/
structure LogSessionNoteOutput where
  note_id : String
  project_id : String
  timestamp : String
deriving Repr, DecidableEq

/-- Tool 7 handler (`src/index.ts` lines 652-695): purely local; `timestamp`
is the current ISO time and `nowMs` the current epoch milliseconds. -/
def logSessionNoteHandler (timestamp : String) (nowMs : Nat)
    (i : LogSessionNoteInput) : ToolResponse LogSessionNoteOutput :=
  if containsGuardrailBypass (scannedNotePayload i) then
    guardrailViolationResponse
  else
    { text := "✓ Logged session note: " ++ jsSubstrTo i.summary_text 100
        ++ (if jsLength i.summary_text > 100 then "..." else "")
    , isError := false
    , structured := some
        { note_id := "note_" ++ toString nowMs
        , project_id := i.project_id
        , timestamp := timestamp } }

/-! ## Policy document rendering and startup (`src/index.ts` lines 12-169) -/

/-- `PROMPT_HASH` from `src/index.ts` line 15. -/
def PROMPT_HASH : String :=
  "48fc8e470dfbadf5e83dbd5713758a28e263806a8132b99a4dc048fa16d29419"

/-- JavaScript truthiness of a value (NaN does not arise for exact
rationals). -/
def jsTruthy : JValue → Bool
  | .vnull => false
  | .str s => s != ""
  | .num q => decide (q ≠ 0)
  | .bool b => b
  | .arr _ => true
  | .obj _ => true

/-- `value === null || value === undefined` (both merged into `vnull`). -/
def JValue.isNullish : JValue → Bool
  | .vnull => true
  | _ => false

/-- `typeof value === 'object'` (true for objects, arrays and null). -/
def isObjectType : JValue → Bool
  | .vnull => true
  | .arr _ => true
  | .obj _ => true
  | _ => false

/-- JavaScript `String(value)`. Numbers render as the rational's canonical
numeral (standing in for JS float formatting); arrays join their elements
with commas. -/
def jsString : JValue → String
  | .vnull => "null"
  | .str s => s
  | .num q => toString q
  | .bool b => if b then "true" else "false"
  | .arr items => String.intercalate "," (items.attach.map fun x => jsString x.1)
  | .obj _ => "[object Object]"
termination_by v => sizeOf v
decreasing_by
  have := List.sizeOf_lt_of_mem x.2
  simp only [JValue.arr.sizeOf_spec]
  omega

/-- `typeof value === 'string' | 'number' | 'boolean'`. -/
def isPrimitive : JValue → Bool
  | .str _ => true
  | .num _ => true
  | .bool _ => true
  | _ => false

/-- `formatValue` from `src/index.ts` lines 28-57: recursive pretty-printer
for section values (null → `(none)`, scalars as single bullets, arrays one
bullet per scalar element recursing into nested structure, empty array →
`(none)`, objects as `key:` plus an indented recursive render, empty object
→ `(empty)`). -/
def formatValue (value : JValue) (indent : String) : String :=
  match value with
  | .vnull => indent ++ "- (none)"
  | .str s => indent ++ "- " ++ s
  | .num q => indent ++ "- " ++ jsString (.num q)
  | .bool b => indent ++ "- " ++ jsString (.bool b)
  | .arr [] => indent ++ "- (none)"
  | .arr items => String.intercalate "\n" (items.attach.map fun x =>
      if isPrimitive x.1 then indent ++ "- " ++ jsString x.1
      else formatValue x.1 (indent ++ "  "))
  | .obj [] => indent ++ "- (empty)"
  | .obj fields => String.intercalate "\n" (fields.attach.map fun p =>
      indent ++ "- " ++ p.1.1 ++ ":\n" ++ formatValue p.1.2 (indent ++ "  "))
termination_by sizeOf value
decreasing_by
  · have := List.sizeOf_lt_of_mem x.2
    simp only [JValue.arr.sizeOf_spec]
    omega
  · have h1 := List.sizeOf_lt_of_mem p.2
    obtain ⟨⟨k, v⟩, hm⟩ := p
    simp only [JValue.obj.sizeOf_spec]
    simp only [Prod.mk.sizeOf_spec] at h1
    omega

/-- `data?.key` on an arbitrary value: field lookup on objects, undefined
otherwise. -/
def jsGet (data : JValue) (key : String) : JValue :=
  match data with
  | .obj fields => (((fields.find? fun p => p.1 == key).map Prod.snd).getD .vnull)
  | _ => .vnull

/-- One owners-list line (`src/index.ts` lines 69-73). -/
def renderOwner (owner : JValue) : String :=
  let name := match jsGet owner "name" with
    | .vnull => "Unknown"
    | v => jsString v
  let contactV := jsGet owner "contact"
  "  - " ++ name
    ++ (if jsTruthy contactV then " (" ++ jsString contactV ++ ")" else "")

/-- The fixed header section (`src/index.ts` lines 61-65). -/
def headerSection (data : JValue) : String :=
  let version := match jsGet data "version" with
    | .vnull => "unknown"
    | v => jsString v
  let updated := match jsGet data "last_updated" with
    | .vnull => "unknown"
    | v => jsString v
  "CoderSwap MCP System Guardrails\nVersion: " ++ version
    ++ " (Last updated " ++ updated ++ ")"

/-- The optional owners section (`src/index.ts` lines 67-76): emitted only
when `owners` is a non-empty array. -/
def ownersSections (data : JValue) : List String :=
  match jsGet data "owners" with
  | .arr owners =>
    if owners.isEmpty then []
    else ["Owners:\n" ++ String.intercalate "\n" (owners.map renderOwner)]
  | _ => []

/-- The optional description section (`src/index.ts` lines 78-80): emitted
only when `description` is truthy. -/
def descriptionSections (data : JValue) : List String :=
  let d := jsGet data "description"
  if jsTruthy d then ["Description:\n  " ++ jsTrim (jsString d)] else []

/-- The sections pushed before the allow-listed ones. -/
def preambleSections (data : JValue) : List String :=
  headerSection data :: (ownersSections data ++ descriptionSections data)

/-- The fixed allow-list of rendered top-level sections, as the ordered
sequence of `pushSection` calls in `src/index.ts` lines 87-99:
(section title, top-level key). -/
def PROMPT_SECTIONS : List (String × String) :=
  [ ("Product Overview", "product_overview")
  , ("Identity", "identity")
  , ("Privacy", "privacy")
  , ("Validation and Security", "validation_and_security")
  , ("Evaluation Standards", "evaluation_standards")
  , ("Promotion Policy", "promotion_policy")
  , ("Workflow", "workflow")
  , ("Communication Style", "communication_style")
  , ("Available Tools", "available_tools")
  , ("Human in Loop", "human_in_loop")
  , ("Error Handling", "error_handling")
  , ("Session Management", "session_management")
  , ("Workflow Templates", "workflow_templates") ]

/-- The text of one rendered section. -/
def sectionText (title : String) (value : JValue) : String :=
  "== " ++ jsToUpper title ++ " ==\n" ++ formatValue value "  "

/-- `pushSection` from `src/index.ts` lines 82-85: skip null/undefined
values, otherwise append the rendered section. -/
def pushSection (sections : List String) (title : String) (value : JValue) :
    List String :=
  if value.isNullish then sections else sections ++ [sectionText title value]

/-- `renderPrompt` (`src/index.ts` lines 59-102) as its ordered section
list: the preamble followed by the thirteen `pushSection` calls in source
order. -/
def renderPromptSections (data : JValue) : List String :=
  PROMPT_SECTIONS.foldl (fun acc tk => pushSection acc tk.1 (jsGet data tk.2))
    (preambleSections data)

/-- `renderPrompt`: the sections joined by blank lines. -/
def renderPrompt (data : JValue) : String :=
  String.intercalate "\n\n" (renderPromptSections data)

/-- Outcome of the startup block: the process either exits non-zero with a
diagnostic on the error stream, or proceeds to serve tools with the rendered
system prompt bound. -/
inductive StartupResult where
  | exited (diagnostic : String) : StartupResult
  | started (systemPrompt : String) : StartupResult
deriving Repr, DecidableEq

/-- The guardrail-prompt loading block (`src/index.ts` lines 142-169).
External collaborators are parameters: `sha256` the content digest,
`readPromptFile` the outcome of reading the fixed-path file, and
`yamlParse` the parser outcome (`.error` models a parser throw carrying its
message). Every thrown failure is caught and turns into a non-zero exit. -/
def loadSystemPrompt (sha256 : String → String)
    (readPromptFile : Except Thrown String)
    (yamlParse : String → Except String JValue) : StartupResult :=
  match readPromptFile with
  | .error e => .exited ("ERROR: Failed to load guardrail prompt. " ++ errMsg e)
  | .ok rawPrompt =>
    let hash := sha256 rawPrompt
    if hash ≠ PROMPT_HASH then
      .exited ("ERROR: Guardrail prompt hash mismatch. Expected " ++ PROMPT_HASH
        ++ ", received " ++ hash ++ ". Refusing to start.")
    else
      match yamlParse rawPrompt with
      | .error msg => .exited ("ERROR: Failed to load guardrail prompt. " ++ msg)
      | .ok parsedPrompt =>
        if jsTruthy parsedPrompt && isObjectType parsedPrompt then
          let systemPrompt := renderPrompt parsedPrompt
          if systemPrompt = "" ∨ jsTrim systemPrompt = "" then
            .exited "ERROR: Failed to load guardrail prompt. Rendered system prompt is empty."
          else
            .started systemPrompt
        else
          .exited "ERROR: Failed to load guardrail prompt. Parsed prompt is empty or invalid."

/-! ## Helper lemmas -/

/-- A scored insertion is a permutation of pushing in front. -/
theorem insertByScoreDesc_perm (r : SearchResult) (l : List SearchResult) :
    List.Perm (insertByScoreDesc r l) (r :: l) := by
  induction l with
  | nil => exact List.Perm.refl _
  | cons x xs ih =>
    rw [insertByScoreDesc]
    split
    · exact List.Perm.refl _
    · exact (ih.cons x).trans (List.Perm.swap r x xs)

/-- The stable sort permutes its input. -/
theorem sortByScoreDesc_perm (l : List SearchResult) :
    List.Perm (sortByScoreDesc l) l := by
  induction l with
  | nil => exact List.Perm.refl _
  | cons x xs ih =>
    simp only [sortByScoreDesc, List.foldr_cons]
    exact (insertByScoreDesc_perm x _).trans (ih.cons x)

/-- Inserting preserves the descending-score ordering. -/
theorem insertByScoreDesc_pairwise (r : SearchResult) (l : List SearchResult)
    (h : l.Pairwise fun a b => b.score ≤ a.score) :
    (insertByScoreDesc r l).Pairwise fun a b => b.score ≤ a.score := by
  induction l with
  | nil => simp [insertByScoreDesc]
  | cons x xs ih =>
    rw [List.pairwise_cons] at h
    rw [insertByScoreDesc]
    by_cases hc : x.score ≤ r.score
    · rw [if_pos hc]
      refine List.Pairwise.cons ?_ (List.Pairwise.cons h.1 h.2)
      intro y hy
      rcases List.mem_cons.mp hy with hy | hy
      · exact hy ▸ hc
      · exact le_trans (h.1 y hy) hc
    · rw [if_neg hc]
      refine List.Pairwise.cons ?_ (ih h.2)
      intro y hy
      rcases List.mem_cons.mp ((insertByScoreDesc_perm r xs).mem_iff.mp hy) with hy | hy
      · exact hy ▸ le_of_lt (lt_of_not_le hc)
      · exact h.1 y hy

/-- The stable sort's output is descending by score. -/
theorem sortByScoreDesc_pairwise (l : List SearchResult) :
    (sortByScoreDesc l).Pairwise fun a b => b.score ≤ a.score := by
  induction l with
  | nil => simp [sortByScoreDesc]
  | cons x xs ih =>
    simp only [sortByScoreDesc, List.foldr_cons]
    exact insertByScoreDesc_pairwise x _ ih

/-- Stability of the insertion step: restricted to any one score value, the
inserted list reads exactly like pushing in front. -/
theorem insertByScoreDesc_filter (r : SearchResult) (l : List SearchResult) (q : ℚ) :
    (insertByScoreDesc r l).filter (fun x => decide (x.score = q))
      = (r :: l).filter (fun x => decide (x.score = q)) := by
  induction l with
  | nil => rfl
  | cons x xs ih =>
    rw [insertByScoreDesc]
    by_cases hc : x.score ≤ r.score
    · rw [if_pos hc]
    · rw [if_neg hc]
      by_cases hr : r.score = q
      · have hx : ¬x.score = q := fun hxq => hc (le_of_eq (hxq.trans hr.symm))
        simp [List.filter_cons, ih, hr, hx]
      · simp [List.filter_cons, ih, hr]

/-- Stability of the sort: for every score value, the tied results appear in
the backend's original order. -/
theorem sortByScoreDesc_filter (l : List SearchResult) (q : ℚ) :
    (sortByScoreDesc l).filter (fun x => decide (x.score = q))
      = l.filter (fun x => decide (x.score = q)) := by
  induction l with
  | nil => rfl
  | cons x xs ih =>
    simp only [sortByScoreDesc, List.foldr_cons] at *
    rw [insertByScoreDesc_filter]
    simp [List.filter_cons, ih]

/-- Closed form of the sequential query loop: one record per query, and the
trace of backend searches is exactly the query list, in order. -/
theorem runSearchQueries_eq (b : String → List SearchResult) (qs : List String) :
    runSearchQueries b qs =
      (qs.map fun query =>
        { query := query
        , topScore := (((sortByScoreDesc (b query)).head?).map SearchResult.score).getD 0
        , count := (sortByScoreDesc (b query)).length
        , items := sortByScoreDesc (b query) }
      , qs) := by
  induction qs with
  | nil => rfl
  | cons q rest ih => simp [runSearchQueries, ih]

/-- The summing fold of `testSearchQuality` is the sum of the top scores. -/
theorem foldl_add_topScore (l : List QueryRecord) (a : ℚ) :
    l.foldl (fun sum item => sum + item.topScore) a
      = a + (l.map QueryRecord.topScore).sum := by
  induction l generalizing a with
  | nil => simp
  | cons x xs ih => simp [ih, add_assoc]

/-- Modelled from the spec: "deduplicate the query list (order of first
occurrence preserved)" — keep each query's first occurrence, dropping the
later duplicates. -/
def dedupFirstOccurrence : List String → List String
  | [] => []
  | q :: rest => q :: dedupFirstOccurrence (rest.filter fun r => r != q)
termination_by l => l.length
decreasing_by
  exact Nat.lt_succ_of_le (List.length_filter_le _ _)

/-- Generalized accumulator form of `setDedup` against the spec-side
first-occurrence deduplication. -/
theorem setDedup_go (l : List String) : ∀ acc : List String,
    l.foldl (fun acc q => if q ∈ acc then acc else acc ++ [q]) acc
      = acc ++ dedupFirstOccurrence (l.filter fun q => decide (q ∉ acc)) := by
  induction l with
  | nil => intro acc; simp [dedupFirstOccurrence]
  | cons q rest ih =>
    intro acc
    by_cases hq : q ∈ acc
    · have hd : decide (q ∉ acc) = false := by simp [hq]
      simp only [List.foldl_cons, List.filter_cons, hd, if_pos hq, Bool.false_eq_true,
        if_false]
      exact ih acc
    · have hd : decide (q ∉ acc) = true := by simp [hq]
      simp only [List.foldl_cons, List.filter_cons, hd, if_neg hq, if_true]
      rw [ih (acc ++ [q])]
      have hpred : (rest.filter fun r => decide (r ∉ acc ++ [q]))
          = (rest.filter fun r => decide (r ∉ acc)).filter fun r => r != q := by
        rw [List.filter_filter]
        apply List.filter_congr
        intro a _
        by_cases h1 : a = q <;> by_cases h2 : a ∈ acc <;>
          simp [h1, h2, List.mem_append]
      rw [hpred, dedupFirstOccurrence, List.append_assoc, List.singleton_append]

/-- `Array.from(new Set(queries))` keeps exactly the first occurrence of
each query, in order. -/
theorem setDedup_eq_dedupFirstOccurrence (l : List String) :
    setDedup l = dedupFirstOccurrence l := by
  have h := setDedup_go l []
  simpa [setDedup] using h

/-- `strIncludes` holds for any witnessed contiguous occurrence. -/
theorem strIncludes_of_infix {hay needle : String} (h : needle.data <:+: hay.data) :
    strIncludes hay needle = true := by
  simp [strIncludes, h]

/-- A string contains its own suffix. -/
theorem strIncludes_append (a b : String) : strIncludes (a ++ b) b = true :=
  strIncludes_of_infix (by
    rw [String.data_append]
    exact (List.suffix_append a.data b.data).isInfix)

/-- Evaluating `any` over an attached list is `any` over the plain list. -/
theorem any_attach {α : Type} (l : List α) (f : α → Bool) :
    (l.attach.any fun x => f x.1) = l.any f := by
  rw [Bool.eq_iff_iff]
  simp [List.any_eq_true]

/-- Evaluating `flatMap` over an attached list is `flatMap` over the plain
list. -/
theorem flatMap_attach {α β : Type} (l : List α) (f : α → List β) :
    (l.attach.flatMap fun x => f x.1) = l.flatMap f := by
  have h : (l.attach.flatMap fun x => f x.1) = (l.attach.map Subtype.val).flatMap f := by
    rw [List.flatMap_map]
  rw [h, List.attach_map_subtype_val]

@[simp] theorem containsGuardrailBypass_null :
    containsGuardrailBypass .vnull = false := by
  simp [containsGuardrailBypass]

@[simp] theorem containsGuardrailBypass_str (s : String) :
    containsGuardrailBypass (.str s) = matchesGuardrailKeyword s := by
  simp [containsGuardrailBypass]

@[simp] theorem containsGuardrailBypass_num (q : ℚ) :
    containsGuardrailBypass (.num q) = false := by
  simp [containsGuardrailBypass]

@[simp] theorem containsGuardrailBypass_bool (b : Bool) :
    containsGuardrailBypass (.bool b) = false := by
  simp [containsGuardrailBypass]

@[simp] theorem containsGuardrailBypass_arr (items : List JValue) :
    containsGuardrailBypass (.arr items) = items.any containsGuardrailBypass := by
  rw [containsGuardrailBypass]
  exact any_attach items containsGuardrailBypass

@[simp] theorem containsGuardrailBypass_obj (fields : List (String × JValue)) :
    containsGuardrailBypass (.obj fields)
      = fields.any fun field => containsGuardrailBypass field.2 := by
  rw [containsGuardrailBypass]
  exact any_attach fields fun field => containsGuardrailBypass field.2

@[simp] theorem strings_null : JValue.strings .vnull = [] := by
  simp [JValue.strings]

@[simp] theorem strings_str (s : String) : (JValue.str s).strings = [s] := by
  simp [JValue.strings]

@[simp] theorem strings_num (q : ℚ) : (JValue.num q).strings = [] := by
  simp [JValue.strings]

@[simp] theorem strings_bool (b : Bool) : (JValue.bool b).strings = [] := by
  simp [JValue.strings]

@[simp] theorem strings_arr (items : List JValue) :
    (JValue.arr items).strings = items.flatMap JValue.strings := by
  rw [JValue.strings]
  exact flatMap_attach items JValue.strings

@[simp] theorem strings_obj (fields : List (String × JValue)) :
    (JValue.obj fields).strings = fields.flatMap fun field => field.2.strings := by
  rw [JValue.strings]
  exact flatMap_attach fields fun field => field.2.strings

/-- Claim C1: for every payload built from nested mappings, ordered sequences,
and scalars, `containsGuardrailBypass` returns `true` if and only if some
string value reachable anywhere in the payload case-insensitively contains one
of the fixed guardrail-bypass phrases; on every payload with no such phrase
(null/undefined, numbers, booleans, empty containers included) it returns
`false`. -/
theorem claim_c1_scanner_correct (v : JValue) :
    containsGuardrailBypass v = true
      ↔ ∃ s ∈ v.strings, ∃ keyword ∈ GUARDRAIL_KEYWORDS,
          strIncludes (jsToLower s) keyword = true := by
  induction v using JValue.inductionOn with
  | hnull => simp
  | hstr s => simp [matchesGuardrailKeyword, List.any_eq_true]
  | hnum q => simp
  | hbool b => simp
  | harr items ih =>
    simp only [containsGuardrailBypass_arr, strings_arr, List.any_eq_true,
      List.mem_flatMap]
    constructor
    · rintro ⟨x, hx, hb⟩
      obtain ⟨s, hs, hk⟩ := (ih x hx).mp hb
      exact ⟨s, ⟨x, hx, hs⟩, hk⟩
    · rintro ⟨s, ⟨x, hx, hs⟩, hk⟩
      exact ⟨x, hx, (ih x hx).mpr ⟨s, hs, hk⟩⟩
  | hobj fields ih =>
    simp only [containsGuardrailBypass_obj, strings_obj, List.any_eq_true,
      List.mem_flatMap]
    constructor
    · rintro ⟨p, hp, hb⟩
      obtain ⟨s, hs, hk⟩ := (ih p hp).mp hb
      exact ⟨s, ⟨p, hp, hs⟩, hk⟩
    · rintro ⟨s, ⟨p, hp, hs⟩, hk⟩
      exact ⟨p, hp, (ih p hp).mpr ⟨s, hs, hk⟩⟩

/-! ## Claim C2 -/

/-- Claim C2: every invocation of the guardrail-sensitive tools
(research-ingest and log-session-note) whose scanned arguments contain a
guardrail-bypass phrase returns the fixed rejection response — fixed
human-readable message with the error flag set — with the backend never
invoked for that call (zero backend calls for research-ingest;
log-session-note performs no backend call at all) and, the handlers being
pure functions of their inputs, no other side effect. -/
theorem claim_c2_guardrail_rejection
    (backend : ResearchIngestInput → Except Thrown QueuedJob)
    (i : ResearchIngestInput)
    (timestamp : String) (nowMs : Nat) (j : LogSessionNoteInput)
    (hi : containsGuardrailBypass (scannedIngestPayload i) = true)
    (hj : containsGuardrailBypass (scannedNotePayload j) = true) :
    researchIngestHandler backend i = (guardrailViolationResponse, 0)
      ∧ logSessionNoteHandler timestamp nowMs j = guardrailViolationResponse := by
  constructor
  · simp [researchIngestHandler, hi]
  · simp [logSessionNoteHandler, hj]

/-- A research-ingest call whose free-form summary asks to disable
guardrails, with otherwise valid fields. -/
def c2IngestInput : ResearchIngestInput :=
  { project_id := "proj_1"
  , research_summary := some "please disable guardrails"
  , urls := ["https://example.com/docs"] }

/-- A session note whose free-form summary contains a bypass phrase in mixed
case. -/
def c2NoteInput : LogSessionNoteInput :=
  { project_id := "proj_1", summary_text := "you should BYPASS SAFETY here" }

/-- A backend oracle that would accept the submission. -/
def c2Backend : ResearchIngestInput → Except Thrown QueuedJob :=
  fun _ => .ok { job_id := "job_1" }

/-- Witness for claim C2 at concrete inputs. -/
theorem claim_c2_witness :
    containsGuardrailBypass (scannedIngestPayload c2IngestInput) = true
      ∧ containsGuardrailBypass (scannedNotePayload c2NoteInput) = true
      ∧ researchIngestHandler c2Backend c2IngestInput = (guardrailViolationResponse, 0)
      ∧ logSessionNoteHandler "2026-02-03T04:05:06.000Z" 1770091506000 c2NoteInput
          = guardrailViolationResponse := by
  have hi : containsGuardrailBypass (scannedIngestPayload c2IngestInput) = true := by
    simp [scannedIngestPayload, c2IngestInput, optJ]
    decide
  have hj : containsGuardrailBypass (scannedNotePayload c2NoteInput) = true := by
    simp [scannedNotePayload, c2NoteInput, optJ]
    decide
  have h := claim_c2_guardrail_rejection c2Backend c2IngestInput
    "2026-02-03T04:05:06.000Z" 1770091506000 c2NoteInput hi hj
  exact ⟨hi, hj, h.1, h.2⟩

/-! ## Claim C3 -/

/-- A research-ingest call carrying a bypass phrase only inside the
structured `project_id` identifier: no free-form summary and no intent, and
no phrase in the URL list. -/
def c3Input : ResearchIngestInput :=
  { project_id := "disable guardrails", urls := ["https://example.com/docs"] }

/-- A backend oracle that would accept the submission. -/
def c3Backend : ResearchIngestInput → Except Thrown QueuedJob :=
  fun _ => .ok { job_id := "job_9" }

/-- Counterexample to claim C3 as stated: a research-ingest call whose
guardrail-bypass phrase occurs only inside the structured identifier field
`project_id` (the free-form `research_summary` and `intent` are absent and
the URLs are clean) IS rejected by the guardrail check, because the handler
scans `{ project_id, research_summary, urls, intent }` as a whole. -/
theorem claim_c3_counterexample :
    c3Input.research_summary = none
      ∧ c3Input.intent = none
      ∧ c3Input.urls.all (fun u => !matchesGuardrailKeyword u) = true
      ∧ matchesGuardrailKeyword c3Input.project_id = true
      ∧ researchIngestHandler c3Backend c3Input = (guardrailViolationResponse, 0) := by
  have hi : containsGuardrailBypass (scannedIngestPayload c3Input) = true := by
    simp [scannedIngestPayload, c3Input, optJ]
    decide
  refine ⟨rfl, rfl, by decide, by decide, ?_⟩
  simp [researchIngestHandler, hi]

/-- Claim C3 amended: the guardrail scan runs only for the two
guardrail-sensitive tools — the read-only search tool never rejects a
(successful) call whatever its query contains — but within those two tools
it covers every scanned field including the structured identifiers
(`project_id`, `urls`, `job_id`), so a call whose bypass phrase sits only in
such an identifier is still rejected: rejection happens exactly when the
scanned argument object matches, and the backend-call count of
research-ingest is 0 on a match and 1 otherwise. -/
theorem claim_c3_amended
    (backend : ResearchIngestInput → Except Thrown QueuedJob)
    (i : ResearchIngestInput)
    (timestamp : String) (nowMs : Nat) (j : LogSessionNoteInput)
    (res : SearchBackendResponse) (si : SearchInput) :
    (researchIngestHandler backend i = (guardrailViolationResponse, 0)
       ↔ containsGuardrailBypass (scannedIngestPayload i) = true)
      ∧ ((researchIngestHandler backend i).2
          = if containsGuardrailBypass (scannedIngestPayload i) = true then 0 else 1)
      ∧ (logSessionNoteHandler timestamp nowMs j = guardrailViolationResponse
         ↔ containsGuardrailBypass (scannedNotePayload j) = true)
      ∧ (searchHandler (.ok res) si).isError = false := by
  refine ⟨?_, ?_, ?_, ?_⟩
  · cases h : containsGuardrailBypass (scannedIngestPayload i) with
    | true => simp [researchIngestHandler, h]
    | false =>
      simp only [researchIngestHandler, h, Bool.false_eq_true, if_false]
      cases hb : backend i <;>
        simp [Prod.ext_iff, errorResponse, guardrailViolationResponse]
  · cases h : containsGuardrailBypass (scannedIngestPayload i) with
    | true => simp [researchIngestHandler, h]
    | false =>
      simp only [researchIngestHandler, h, Bool.false_eq_true, if_false]
      cases hb : backend i <;> rfl
  · cases h : containsGuardrailBypass (scannedNotePayload j) with
    | true => simp [logSessionNoteHandler, h]
    | false =>
      simp [logSessionNoteHandler, h, guardrailViolationResponse,
        ToolResponse.mk.injEq]
  · rw [searchHandler]
    split <;> rfl

/-! ## Claim C9 -/

/-- The ordered `pushSection` calls reduce to filtering the allow-list by
presence and rendering each kept entry in the fixed order. -/
theorem foldl_pushSection (data : JValue) (secs : List (String × String)) :
    ∀ acc : List String,
      secs.foldl (fun a tk => pushSection a tk.1 (jsGet data tk.2)) acc
        = acc ++ (secs.filter fun tk => !(jsGet data tk.2).isNullish).map
            (fun tk => sectionText tk.1 (jsGet data tk.2)) := by
  induction secs with
  | nil => intro acc; simp
  | cons tk rest ih =>
    intro acc
    simp only [List.foldl_cons, List.filter_cons]
    cases h : (jsGet data tk.2).isNullish with
    | true =>
      have hp : pushSection acc tk.1 (jsGet data tk.2) = acc := by
        simp [pushSection, h]
      simp only [h, Bool.not_true, Bool.false_eq_true, if_false, hp]
      exact ih acc
    | false =>
      have hp : pushSection acc tk.1 (jsGet data tk.2)
          = acc ++ [sectionText tk.1 (jsGet data tk.2)] := by
        simp [pushSection, h]
      simp only [h, Bool.not_false, if_true, hp]
      rw [ih (acc ++ [sectionText tk.1 (jsGet data tk.2)])]
      simp [List.append_assoc]

/-- Claim C9: for every parsed policy document, the rendered section list is
the fixed preamble followed by exactly one section per present (non-nullish)
allow-listed top-level key, in the fixed `PROMPT_SECTIONS` order; keys
outside the allow-list are silently omitted and never produce a section
(every section after the preamble arises from a `PROMPT_SECTIONS` entry). -/
theorem claim_c9_allowlisted_sections (data : JValue) :
    renderPromptSections data
      = preambleSections data
        ++ (PROMPT_SECTIONS.filter fun tk => !(jsGet data tk.2).isNullish).map
            (fun tk => sectionText tk.1 (jsGet data tk.2)) := by
  rw [renderPromptSections]
  exact foldl_pushSection data PROMPT_SECTIONS (preambleSections data)

/-! ## Claim C7 -/

/-- Claim C7 amended: startup reaches the point of accepting tool calls
exactly when the file read succeeds, the content hash equals the single
pinned expected hash, the document parses to a truthy value of object type
(a mapping or a sequence, possibly empty — the code requires no
non-emptiness), and the rendered text is non-empty (also after trimming);
in every other case the process exits non-zero with a diagnostic before any
tool becomes callable. -/
theorem claim_c7_amended_startup_gate (sha256 : String → String)
    (readPromptFile : Except Thrown String)
    (yamlParse : String → Except String JValue) (sp : String) :
    loadSystemPrompt sha256 readPromptFile yamlParse = .started sp
      ↔ ∃ raw, readPromptFile = .ok raw
          ∧ sha256 raw = PROMPT_HASH
          ∧ ∃ v, yamlParse raw = .ok v
              ∧ (jsTruthy v && isObjectType v) = true
              ∧ ¬(renderPrompt v = "" ∨ jsTrim (renderPrompt v) = "")
              ∧ sp = renderPrompt v := by
  cases readPromptFile with
  | error e => simp [loadSystemPrompt]
  | ok raw =>
    by_cases hh : sha256 raw = PROMPT_HASH
    · cases hp : yamlParse raw with
      | error msg => simp [loadSystemPrompt, hh, hp]
      | ok v =>
        by_cases hv : (jsTruthy v && isObjectType v) = true
        · by_cases hr : renderPrompt v = "" ∨ jsTrim (renderPrompt v) = ""
          · simp only [loadSystemPrompt, hh, hp, hv, hr]
            simp [hh, hp, hv]
            intro _ _ h1 h2 _
            rcases hr with hr0 | hr0
            · exact h1 hr0
            · exact h2 hr0
          · simp [loadSystemPrompt, hh, hp, hv, hr]
            have hv1 : jsTruthy v = true ∧ isObjectType v = true := by
              simpa using hv
            have hr1 := not_or.mp hr
            constructor
            · intro h
              exact ⟨hv1, ⟨hr1.1, hr1.2⟩, h.symm⟩
            · rintro ⟨_, _, h⟩
              exact h.symm
        · simp only [loadSystemPrompt, hh, hp, hv]
          simp [hh, hp]
          intro ha hb
          exact ((hv (by rw [ha, hb]; rfl)).elim)
    · simp [loadSystemPrompt, hh]

/-- A digest oracle under which the read content matches the pinned hash. -/
def c7Sha : String → String := fun _ => PROMPT_HASH

/-- A successful read of the policy file. -/
def c7Read : Except Thrown String := .ok "policy"

/-- A parser returning the empty mapping. -/
def c7Parse : String → Except String JValue := fun _ => .ok (.obj [])

/-- Counterexample to claim C7 as stated: the code never checks that the
parsed document is a non-empty mapping. With the digest and parse
collaborators instantiated so that the read content passes the pinned-hash
comparison yet parses to the empty mapping, startup still reaches the
accepting state — the truthiness/object-type test admits `{}` (and arrays),
and the rendered text is never empty because the fixed header section is
always emitted. -/
theorem claim_c7_counterexample :
    c7Parse "policy" = .ok (.obj [])
      ∧ (jsTruthy (JValue.obj []) && isObjectType (JValue.obj [])) = true
      ∧ loadSystemPrompt c7Sha c7Read c7Parse = .started (renderPrompt (.obj [])) := by
  refine ⟨rfl, rfl, ?_⟩
  rfl

/-! ## Claim C8 -/

/-- Claim C8: project-stats is computed by listing all projects and linearly
scanning for the requested identifier. When the scan finds a project with
that identifier, the handler's response carries exactly that project's
listed fields; when none matches, the handler produces the
backend-failure-class error envelope whose message references the missing
identifier. -/
theorem claim_c8_project_stats (projects : List ProjectSummary) (pid : String) :
    (∀ p, projects.find? (fun item => item.project_id == pid) = some p →
        getProjectStatsHandler (.ok projects) pid
          = { text := "Project: " ++ jsOrStr p.name pid
                ++ "\nDocuments: " ++ toString (p.doc_count.getD 0)
                ++ "\nCreated: " ++ jsOrStr p.created_at "Unknown"
            , isError := false
            , structured := some
                { project_id := p.project_id
                , name := p.name
                , doc_count := p.doc_count
                , created_at := p.created_at } })
      ∧ (projects.find? (fun item => item.project_id == pid) = none →
          getProjectStatsHandler (.ok projects) pid
              = errorResponse "✗ Failed to get project stats: "
                  (.err ("Project " ++ pid ++ " not found"))
            ∧ strIncludes (getProjectStatsHandler (.ok projects) pid).text pid
                = true) := by
  constructor
  · intro p hp
    simp [getProjectStatsHandler, getProjectStats, hp]
  · intro hp
    have h1 : getProjectStatsHandler (.ok projects) pid
        = errorResponse "✗ Failed to get project stats: "
            (.err ("Project " ++ pid ++ " not found")) := by
      simp [getProjectStatsHandler, getProjectStats, hp]
    refine ⟨h1, ?_⟩
    rw [h1]
    apply strIncludes_of_infix
    refine ⟨("✗ Failed to get project stats: " ++ "Project ").data,
      " not found".data, ?_⟩
    simp [errorResponse, errMsg, String.data_append, List.append_assoc]

/-- A backend listing of three projects, none with the requested id. -/
def c8Projects : List ProjectSummary :=
  [ { project_id := "proj_a", name := some "Alpha", doc_count := some 12
    , created_at := some "2026-01-01" }
  , { project_id := "proj_b", name := some "Beta" }
  , { project_id := "proj_c" } ]

/-- Witness for claim C8 at a concrete listing: the missing identifier
yields a flagged error mentioning it, and a present identifier yields that
project's fields. -/
theorem claim_c8_witness :
    c8Projects.find? (fun item => item.project_id == "proj_missing") = none
      ∧ (getProjectStatsHandler (.ok c8Projects) "proj_missing").isError = true
      ∧ strIncludes (getProjectStatsHandler (.ok c8Projects) "proj_missing").text
          "proj_missing" = true
      ∧ c8Projects.find? (fun item => item.project_id == "proj_b")
          = some { project_id := "proj_b", name := some "Beta" }
      ∧ (getProjectStatsHandler (.ok c8Projects) "proj_b").structured
          = some { project_id := "proj_b", name := some "Beta"
                 , doc_count := none, created_at := none } := by
  have hnone : c8Projects.find? (fun item => item.project_id == "proj_missing")
      = none := by decide
  have hsome : c8Projects.find? (fun item => item.project_id == "proj_b")
      = some { project_id := "proj_b", name := some "Beta" } := by decide
  have hmiss := (claim_c8_project_stats c8Projects "proj_missing").2 hnone
  have hfound := (claim_c8_project_stats c8Projects "proj_b").1
    { project_id := "proj_b", name := some "Beta" } hsome
  refine ⟨hnone, ?_, hmiss.2, hsome, ?_⟩
  · rw [hmiss.1]; rfl
  · rw [hfound]

/-! ## Claim C10 -/

/-- Claim C10: in every successful search response, the structured output's
`result_count` is the full length of the backend's result list while
`results` holds only the first `top_k` entries; hence when the backend
returns more than `top_k` results, `result_count` strictly exceeds the
returned array's length. -/
theorem claim_c10_search_counts (res : SearchBackendResponse) (i : SearchInput)
    (o : SearchOutput)
    (h : (searchHandler (.ok res) i).structured = some o) :
    o.result_count = res.results.length
      ∧ o.results = (res.results.take i.top_k).map
          (fun r => { score := r.score, title := r.title, snippet := r.snippet })
      ∧ o.results.length = min i.top_k res.results.length
      ∧ (res.results.length > i.top_k → o.result_count > o.results.length) := by
  rw [searchHandler] at h
  split at h <;>
    (simp only [Option.some.injEq] at h
     subst h
     refine ⟨rfl, rfl, by simp, ?_⟩
     intro hlen
     simp only [List.length_map, List.length_take]
     omega)

/-- A backend response with three results against a `top_k` of two. -/
def c10Res : SearchBackendResponse :=
  { results := [ { score := 9/10, title := some "A" }
               , { score := 1/2 }
               , { score := 1/5, snippet := some "s" } ] }

/-- The search call truncating at two results. -/
def c10Input : SearchInput :=
  { project_id := "proj_1", query := "hybrid search", top_k := 2
  , snippet_length := 200 }

/-- The structured output the handler produces for that call. -/
def c10Out : SearchOutput :=
  { query := "hybrid search"
  , result_count := 3
  , results := [ { score := 9/10, title := some "A" }, { score := 1/2 } ] }

/-- Witness for claim C10: three backend results, `top_k = 2`, so
`result_count = 3` strictly exceeds the two returned entries. -/
theorem claim_c10_witness :
    (searchHandler (.ok c10Res) c10Input).structured = some c10Out
      ∧ c10Out.result_count > c10Out.results.length := by
  have h : (searchHandler (.ok c10Res) c10Input).structured = some c10Out := by
    rfl
  exact ⟨h, (claim_c10_search_counts c10Res c10Input c10Out h).2.2.2 (by decide)⟩

/-! ## Claim C6 -/

/-- Claim C6: for every backend-calling tool and every validated input, a
failure raised by the backend call never escapes the tool boundary — each
handler is a total function returning the uniform error envelope: the error
flag set, the text beginning with the tool's failure marker (each marker
starts with the `✗` symbol) and containing the underlying error's message,
with `"Unknown error"` standing in when the thrown value carries no message.
(The log-session-note tool performs no backend call, so the property is
vacuous there.) -/
theorem claim_c6_error_envelope (e : Thrown)
    (name : String) (description : Option String) (project_id : String)
    (i : ResearchIngestInput) (job_id : String) (si : SearchInput) :
    createProjectHandler (.error e) name description
        = errorResponse "✗ Failed to create project: " e
      ∧ listProjectsHandler (.error e)
          = errorResponse "✗ Failed to list projects: " e
      ∧ getProjectStatsHandler (.error e) project_id
          = errorResponse "✗ Failed to get project stats: " e
      ∧ (containsGuardrailBypass (scannedIngestPayload i) = false →
          (researchIngestHandler (fun _ => .error e) i).1
            = errorResponse "✗ Failed to start research ingest: " e)
      ∧ getJobStatusHandler (.error e) job_id
          = errorResponse "✗ Failed to get job status: " e
      ∧ searchHandler (.error e) si = errorResponse "✗ Search failed: " e
      ∧ validateSearchHandler (.error e)
          = errorResponse "✗ Search quality test failed: " e
      ∧ (∀ marker : String,
          (@errorResponse Unit marker e).isError = true
            ∧ strIncludes (@errorResponse Unit marker e).text (errMsg e) = true)
      ∧ errMsg Thrown.nonError = "Unknown error"
      ∧ (∀ m : String, errMsg (.err m) = m) := by
  refine ⟨rfl, rfl, ?_, ?_, rfl, rfl, rfl, ?_, rfl, fun m => rfl⟩
  · simp [getProjectStatsHandler, getProjectStats]
  · intro hscan
    simp [researchIngestHandler, hscan]
  · intro marker
    exact ⟨rfl, strIncludes_append marker (errMsg e)⟩

/-- A clean research-ingest input for the C6 witness. -/
def c6Input : ResearchIngestInput :=
  { project_id := "proj_7", urls := ["https://example.com/a"] }

/-- Witness for claim C6: with a clean payload, a thrown backend failure
turns into the flagged research-ingest error envelope. -/
theorem claim_c6_witness :
    containsGuardrailBypass (scannedIngestPayload c6Input) = false
      ∧ (researchIngestHandler (fun _ => .error (.err "backend down")) c6Input).1
          = errorResponse "✗ Failed to start research ingest: " (.err "backend down") := by
  have hscan : containsGuardrailBypass (scannedIngestPayload c6Input) = false := by
    simp [scannedIngestPayload, c6Input, optJ]
    decide
  exact ⟨hscan,
    ((claim_c6_error_envelope (.err "backend down") "n" none "p" c6Input "j"
      { project_id := "p", query := "q" }).2.2.2.1) hscan⟩

/-! ## Claims C4 and C5 -/

/-- Membership is preserved by the spec-side deduplication. -/
theorem mem_dedupFirstOccurrence : ∀ (l : List String) (x : String),
    x ∈ dedupFirstOccurrence l ↔ x ∈ l
  | [], x => by simp [dedupFirstOccurrence]
  | q :: rest, x => by
    rw [dedupFirstOccurrence]
    by_cases hx : x = q
    · simp [hx]
    · simp only [List.mem_cons, hx, false_or]
      rw [mem_dedupFirstOccurrence (rest.filter fun r => r != q) x]
      simp [List.mem_filter, hx]
termination_by l => l.length
decreasing_by
  exact Nat.lt_succ_of_le (List.length_filter_le _ _)

/-- The spec-side deduplication yields pairwise-distinct entries. -/
theorem nodup_dedupFirstOccurrence : ∀ l : List String,
    (dedupFirstOccurrence l).Nodup
  | [] => by simp [dedupFirstOccurrence]
  | q :: rest => by
    rw [dedupFirstOccurrence]
    refine List.nodup_cons.mpr ⟨?_, nodup_dedupFirstOccurrence _⟩
    intro hq
    have hmem := (mem_dedupFirstOccurrence _ q).mp hq
    have := (List.mem_filter.mp hmem).2
    simp at this
termination_by l => l.length
decreasing_by
  exact Nat.lt_succ_of_le (List.length_filter_le _ _)

/-- Claim C5: the effective query list is the fixed five-query probe suite
under `run_full_suite` and the caller-supplied list otherwise; it is
deduplicated keeping the order of first occurrence (the `Set`-based
deduplication coincides with the spec-side first-occurrence one); exactly
one backend search is issued per unique query — the trace of issued searches
is the deduplicated list itself, duplicate-free and in order — and the
whole operation fails with the fixed error, with no backend search issued,
exactly when the deduplicated list is empty. -/
theorem claim_c5_dedup_and_trace (b : String → List SearchResult)
    (input : TestSearchQualityInput) :
    (∀ tq, effectiveQueries true tq = FULL_SUITE_QUERIES)
      ∧ (∀ qs, effectiveQueries false (some qs) = qs)
      ∧ setDedup (effectiveQueries input.run_full_suite input.test_queries)
          = dedupFirstOccurrence
              (effectiveQueries input.run_full_suite input.test_queries)
      ∧ (testSearchQuality b input).2
          = setDedup (effectiveQueries input.run_full_suite input.test_queries)
      ∧ ((testSearchQuality b input).2).Nodup
      ∧ ((testSearchQuality b input).1
            = .error "No queries provided for search quality test"
          ↔ setDedup (effectiveQueries input.run_full_suite input.test_queries)
              = []) := by
  have htrace : (testSearchQuality b input).2
      = setDedup (effectiveQueries input.run_full_suite input.test_queries) := by
    by_cases hemp :
        (setDedup (effectiveQueries input.run_full_suite input.test_queries)).isEmpty
    · simp only [testSearchQuality, hemp, if_true]
      exact (List.isEmpty_iff.mp hemp).symm
    · simp [testSearchQuality, hemp, runSearchQueries_eq]
  refine ⟨fun tq => rfl, fun qs => rfl, setDedup_eq_dedupFirstOccurrence _,
    htrace, ?_, ?_⟩
  · rw [htrace, setDedup_eq_dedupFirstOccurrence]
    exact nodup_dedupFirstOccurrence _
  · by_cases hemp :
        (setDedup (effectiveQueries input.run_full_suite input.test_queries)).isEmpty
    · simp [testSearchQuality, hemp, List.isEmpty_iff.mp hemp]
    · simp only [testSearchQuality, hemp, Bool.false_eq_true, if_false,
        runSearchQueries_eq]
      constructor
      · intro hcontra
        exact absurd hcontra (by simp)
      · intro hnil
        exact absurd (List.isEmpty_iff.mpr hnil) hemp

/-- Claim C4: in every successful search-quality test, each per-query record
stores the backend's result list sorted by descending score — a permutation
of the backend list, pairwise descending, and stable (for every score value
the tied results keep the backend's original order) — with the top score
equal to the first sorted result's score or 0 when there are none and the
count equal to the sorted list's length; and the aggregate satisfies:
queries_tested = the number of records = the number of backend searches run,
average_top_score = the sum of the per-query top scores divided by the
length guarded below by 1, and zero_result_queries = exactly the queries
whose result count was zero, in execution order. -/
theorem claim_c4_report_content (b : String → List SearchResult)
    (input : TestSearchQualityInput) (rep : QualityReport)
    (h : (testSearchQuality b input).1 = .ok rep) :
    (∀ r ∈ rep.results,
        List.Perm r.items (b r.query)
          ∧ r.items.Pairwise (fun x y => y.score ≤ x.score)
          ∧ (∀ q : ℚ, r.items.filter (fun x => decide (x.score = q))
              = (b r.query).filter (fun x => decide (x.score = q)))
          ∧ r.topScore = ((r.items.head?.map SearchResult.score).getD 0)
          ∧ r.count = r.items.length)
      ∧ rep.aggregate.queries_tested = rep.results.length
      ∧ rep.aggregate.queries_tested = ((testSearchQuality b input).2).length
      ∧ rep.aggregate.average_top_score
          = (rep.results.map QueryRecord.topScore).sum
              / ((max rep.results.length 1 : Nat) : ℚ)
      ∧ rep.aggregate.zero_result_queries
          = (rep.results.filter fun r => r.count == 0).map QueryRecord.query := by
  by_cases hemp :
      (setDedup (effectiveQueries input.run_full_suite input.test_queries)).isEmpty
  · exfalso
    simp [testSearchQuality, hemp] at h
  · simp only [testSearchQuality, hemp, Bool.false_eq_true, if_false,
      runSearchQueries_eq, Except.ok.injEq] at h ⊢
    subst h
    refine ⟨?_, rfl, by simp, ?_, rfl⟩
    · intro r hr
      rw [List.mem_map] at hr
      obtain ⟨q, hq, rfl⟩ := hr
      exact ⟨sortByScoreDesc_perm _, sortByScoreDesc_pairwise _,
        fun qq => sortByScoreDesc_filter _ qq, rfl, rfl⟩
    · rw [foldl_add_topScore]
      simp [List.map_map, Function.comp]

/-- A concrete backend for the C4 witness: two scored results for "alpha",
one for "beta", none for "gamma". -/
def c4Backend : String → List SearchResult := fun query =>
  if query = "alpha" then [ { score := 9 }, { score := 5, title := some "t" } ]
  else if query = "beta" then [ { score := 5 } ]
  else []

/-- A caller-supplied query list containing a duplicate. -/
def c4Input : TestSearchQualityInput :=
  { project_id := "proj_1"
  , test_queries := some ["alpha", "beta", "alpha", "gamma"] }

/-- The report the aggregator produces for that call. -/
def c4Report : QualityReport :=
  ((testSearchQuality c4Backend c4Input).1).toOption.getD
    { aggregate := { queries_tested := 0, average_top_score := 0
                   , zero_result_queries := [] }
    , results := [] }

/-- Witness for claim C4 at a concrete backend: the test succeeds, three
unique queries are tested, exactly the zero-result query is reported, and
the average is the guarded mean of the top scores. -/
theorem claim_c4_witness :
    (testSearchQuality c4Backend c4Input).1 = .ok c4Report
      ∧ c4Report.aggregate.queries_tested = 3
      ∧ c4Report.aggregate.zero_result_queries = ["gamma"]
      ∧ c4Report.aggregate.average_top_score
          = (c4Report.results.map QueryRecord.topScore).sum
              / ((max c4Report.results.length 1 : Nat) : ℚ) := by
  have h : (testSearchQuality c4Backend c4Input).1 = .ok c4Report := by rfl
  exact ⟨h, rfl, rfl,
    (claim_c4_report_content c4Backend c4Input c4Report h).2.2.2.1⟩

end McpServer
